import Mathlib

/-!
# VisionaryAI (`src/App.jsx`): capture / voice / speech coordination

A shallow embedding of the single component `App`.  The React state, the two
refs that matter (`captureIntervalRef`, `webcamRef`) and the part of the host
the component talks to (live interval timers, the camera stream's tracks) are
one record, `Session`.  Every function of the component becomes a function
`Session → Session × List Effect`; the list is the sequence of host calls the
function makes, in order.  The asynchronous `captureImage` is split at its
one `await` on the network: `captureImageStart` runs up to the request,
`captureImageResume` runs from the answer on, against whatever the session
has become in between.  React's reaction to a state change (ref attach and
detach, effect clean-ups, effect bodies) is `commit`.

Conventions of the model:
* the state updates one handler makes are committed together, and a handler
  runs in a settled session, so the values its closures captured are the
  current ones; the one closure that can be stale is a suspended
  `captureImage`, whose `isMuted` is an explicit argument of
  `captureImageResume`;
* a voice transcript is given as the handler has normalized it (trimmed and
  lower-cased);
* a response body is the JSON object `response.json()` resolves to, its
  members optional; a rejection of `fetch` or of `response.json()` is the
  outcome `FetchOutcome.threw`;
* the recognizer itself is constructed, started and stopped without
  exceptions.
-/

namespace VisionMini

/-! ## Host -/

/-- Capabilities of the browser that the component tests for. -/
structure Platform where
  /-- `"speechSynthesis" in window` -/
  speechSynthesis : Bool
  /-- `isSpeechRecognitionAvailable()` -/
  speechRecognition : Bool
deriving DecidableEq

/-- One media track of the camera stream; `live` is `readyState = "live"`. -/
structure Track where
  live : Bool
deriving DecidableEq

/-- The `<video>` element of the webcam; `srcObject` is its stream's track
list, `none` while no stream is attached. -/
structure Video where
  srcObject : Option (List Track)
deriving DecidableEq

/-- The object behind `webcamRef.current`: `frame` is what `getScreenshot()`
returns (`none` for `null`), `video` its `video` property. -/
structure Webcam where
  frame : Option String
  video : Option Video
deriving DecidableEq

/-- Host calls made by the component, recorded in call order. -/
inductive Effect where
  /-- `window.speechSynthesis.cancel()` -/
  | synthCancel
  /-- `window.speechSynthesis.speak(new SpeechSynthesisUtterance(text))` -/
  | synthSpeak (text : String)
  /-- `clearInterval(h)` -/
  | clearInterval (h : Nat)
  /-- `setInterval(captureImage, ms)` returning handle `h` -/
  | setInterval (ms : Nat) (h : Nat)
  /-- `track.stop()` on the track at index `i` of the stream -/
  | trackStop (i : Nat)
  /-- a call `captureImage()` -/
  | captureImageCall
  /-- the `fetch` of `captureImage`, for the screenshot `imageSrc` -/
  | fetch (imageSrc : String)
  /-- `recognitionRef.current.stop()` -/
  | recognitionStop
  /-- `recognitionRef.current.start()` -/
  | recognitionStart
  /-- an uncaught `TypeError` leaving the running handler -/
  | typeError
deriving DecidableEq

/-! ## Session state -/

/-- The component's state (`useState` cells), its refs, and the host objects
they point to.  A timer handle is the non-zero number `setInterval` returns,
so `some h` is truthy and `none` is `null`. -/
structure Session where
  isCapturing : Bool
  caption : String
  isLoading : Bool
  isMuted : Bool
  error : String
  isListening : Bool
  hasWelcomed : Bool
  /-- `captureIntervalRef.current` -/
  captureIntervalRef : Option Nat
  /-- `webcamRef.current` -/
  webcamRef : Option Webcam
  /-- handles of the interval timers that are live in the host -/
  timers : List Nat
  /-- the handle the next `setInterval` returns -/
  nextTimer : Nat
deriving DecidableEq

/-- The session right after the component is mounted. -/
def Session.initial : Session :=
  { isCapturing := false, caption := "", isLoading := false, isMuted := false,
    error := "", isListening := true, hasWelcomed := false,
    captureIntervalRef := none, webcamRef := none, timers := [], nextTimer := 1 }

/-! ## Strings -/

/-- Search of `sub` in a character list, position by position. -/
def includesChars : List Char → List Char → Bool
  | [], sub => sub.isEmpty
  | c :: cs, sub => sub.isPrefixOf (c :: cs) || includesChars cs sub

/-- `s.includes(sub)` -/
def includes (s sub : String) : Bool :=
  includesChars s.toList sub.toList

/-- White space and line terminators of ECMAScript, the characters
`String.prototype.trim` removes. -/
def isJsWhitespace (c : Char) : Bool :=
  let n := c.toNat
  n == 0x09 || n == 0x0A || n == 0x0B || n == 0x0C || n == 0x0D || n == 0x20 ||
  n == 0xA0 || n == 0x1680 || (0x2000 ≤ n && n ≤ 0x200A) || n == 0x2028 ||
  n == 0x2029 || n == 0x202F || n == 0x205F || n == 0x3000 || n == 0xFEFF

/-- `s.trim()` -/
def jsTrim (s : String) : String :=
  String.mk ((s.toList.dropWhile isJsWhitespace).reverse.dropWhile isJsWhitespace).reverse

/-- `x || d` for a string-or-undefined `x`: the empty string is falsy. -/
def orDefault (x : Option String) (d : String) : String :=
  match x with
  | some m => if m = "" then d else m
  | none => d

/-! ## Speech output -/

/-- `speakText(text)` -/
def speakText (p : Platform) (text : String) : List Effect :=
  if p.speechSynthesis then [Effect.synthCancel, Effect.synthSpeak text] else []

/-- The utterances of a call sequence, in order. -/
def spoken : List Effect → List String
  | [] => []
  | Effect.synthSpeak text :: es => text :: spoken es
  | _ :: es => spoken es

def welcomeMessage : String := "Welcome to VisionaryAI. Now describing your surroundings."
def openedMessage : String := "Camera opened. Now describing your surroundings."
def closedMessage : String := "Camera closed. Stopped describing."
def fallbackMessage : String := "Could not describe the scene. Please try again."

/-! ## Capture loop controller -/

/-- `startCapturing()` -/
def startCapturing (p : Platform) (s : Session) : Session × List Effect :=
  if !s.isCapturing then
    if !s.hasWelcomed then
      ({ s with hasWelcomed := true, isCapturing := true }, speakText p welcomeMessage)
    else
      ({ s with isCapturing := true }, speakText p openedMessage)
  else (s, [])

/-- `clearInterval(h)` on the host's timers. -/
def clearTimer (h : Nat) (timers : List Nat) : List Nat :=
  timers.filter (fun k => k != h)

/-- `tracks.forEach((track) => track.stop())`: every track ends. -/
def stopAll (tracks : List Track) : List Track :=
  tracks.map (fun _ => { live := false })

/-- The `stop()` calls of `tracks.forEach`, one per track, in order. -/
def stopCalls (tracks : List Track) : List Effect :=
  (List.range tracks.length).map Effect.trackStop

/-- The block "Stop the webcam stream manually" of `stopCapturing`. -/
def stopStream (webcam : Option Webcam) : Option Webcam × List Effect :=
  match webcam with
  | some w =>
    match w.video with
    | some v =>
      match v.srcObject with
      | some tracks =>
        (some { w with video := some { srcObject := some (stopAll tracks) } }, stopCalls tracks)
      | none => (webcam, [])
    | none => (webcam, [])
  | none => (webcam, [])

/-- `stopCapturing()` -/
def stopCapturing (p : Platform) (s : Session) : Session × List Effect :=
  if s.isCapturing then
    let said := speakText p closedMessage
    let cleared : Session × List Effect :=
      match s.captureIntervalRef with
      | some h =>
        ({ s with captureIntervalRef := none, timers := clearTimer h s.timers },
          [Effect.clearInterval h])
      | none => (s, [])
    let stopped := stopStream cleared.1.webcamRef
    ({ cleared.1 with webcamRef := stopped.1, isCapturing := false },
      said ++ cleared.2 ++ stopped.2)
  else (s, [])

/-- `toggleMute()` -/
def toggleMute (p : Platform) (s : Session) : Session × List Effect :=
  let newMuted := !s.isMuted
  ({ s with isMuted := newMuted },
    speakText p (if newMuted then "Audio disabled" else "Audio enabled"))

/-! ## Vision description request -/

/-- The `error` member of a response body. -/
structure ApiError where
  message : Option String
deriving DecidableEq

/-- The `message` member of one choice. -/
structure ChatMessage where
  content : Option String
deriving DecidableEq

/-- One element of `choices`. -/
structure Choice where
  message : Option ChatMessage
deriving DecidableEq

/-- The JSON object `response.json()` resolves to; a member that is absent
is `none`. -/
structure Body where
  error : Option ApiError
  choices : Option (List Choice)
deriving DecidableEq

/-- How the awaited part of `captureImage` ends: `threw message` when `fetch`
or `response.json()` rejects with an error of that message, `response ok body`
when both resolve (`ok` is `response.ok`). -/
inductive FetchOutcome where
  | threw (message : String)
  | response (ok : Bool) (body : Body)
deriving DecidableEq

/-- `data?.choices?.[0]?.message?.content?.trim()` -/
def replyOf (data : Body) : Option String :=
  (((data.choices.bind List.head?).bind Choice.message).bind ChatMessage.content).map jsTrim

/-- The `try` block of `captureImage` after the `await`s: `Except.error m`
is an exception with `err.message = m`, `Except.ok reply` the value of
`reply`. -/
def tryBody (out : FetchOutcome) : Except String (Option String) :=
  match out with
  | FetchOutcome.threw message => Except.error message
  | FetchOutcome.response ok body =>
    if !ok then
      Except.error (orDefault (body.error.bind ApiError.message) "API request failed")
    else Except.ok (replyOf body)

/-- The first part of `captureImage()`: up to the `await` of the request.  The boolean
tells whether a request was sent, that is, whether the call is now
suspended. -/
def captureImageStart (s : Session) : Session × List Effect × Bool :=
  match s.webcamRef with
  | some w =>
    match w.frame with
    | some imageSrc =>
      if imageSrc ≠ "" then
        ({ s with isLoading := true }, [Effect.fetch imageSrc], true)
      else (s, [], false)
    | none => (s, [], false)
  | none => (s, [], false)

/-- The rest of `captureImage()` once the request has ended with `out`.
`muted` is the `isMuted` the callback closed over when it was built (its
dependency list is `[isMuted]`); `s` is the session at the time of the
answer. -/
def captureImageResume (p : Platform) (muted : Bool) (out : FetchOutcome) (s : Session) :
    Session × List Effect :=
  match tryBody out with
  | Except.ok reply =>
    match reply with
    | some r =>
      if r ≠ "" then
        ({ s with caption := r, isLoading := false },
          if !muted then speakText p r else [])
      else
        ({ s with caption := fallbackMessage, isLoading := false },
          if !muted then speakText p fallbackMessage else [])
    | none =>
      ({ s with caption := fallbackMessage, isLoading := false },
        if !muted then speakText p fallbackMessage else [])
  | Except.error message =>
    let errorMessage := "Error: " ++ orDefault (some message) "Failed to process image"
    ({ s with caption := errorMessage, error := errorMessage, isLoading := false },
      if !muted then speakText p "Error processing image. Please try again." else [])

/-- A whole call of `captureImage()` during which nothing else happens: the
request is sent and answered with `out`. -/
def captureImage (p : Platform) (out : FetchOutcome) (s : Session) : Session × List Effect :=
  let started := captureImageStart s
  if started.2.2 then
    let resumed := captureImageResume p s.isMuted out started.1
    (resumed.1, started.2.1 ++ resumed.2)
  else (started.1, started.2.1)

/-! ## Command dispatcher -/

/-- The handler `recognitionRef.current.onresult`, applied to the transcript
it has already trimmed and lower-cased.  Its first statement dereferences
`window.speechSynthesis` without a test. -/
def onresult (p : Platform) (transcript : String) (s : Session) : Session × List Effect :=
  if !p.speechSynthesis then (s, [Effect.typeError])
  else
    let r : Session × List Effect :=
      if includes transcript "open camera" || includes transcript "start camera" then
        startCapturing p s
      else if includes transcript "close camera" || includes transcript "stop camera" then
        stopCapturing p s
      else if includes transcript "mute audio" then
        if !s.isMuted then toggleMute p s else (s, [])
      else if includes transcript "unmute audio" then
        if s.isMuted then toggleMute p s else (s, [])
      else if includes transcript "start" || includes transcript "describe" then
        if s.isCapturing then
          let started := captureImageStart s
          (started.1,
            speakText p "Describing now..." ++ [Effect.captureImageCall] ++ started.2.1)
        else (s, speakText p "Please open the camera first.")
      else (s, [])
    (r.1, Effect.synthCancel :: r.2)

/-- The handler `recognitionRef.current.onerror`. -/
def onerror (p : Platform) (err : String) (s : Session) : Session × List Effect :=
  if err = "not-allowed" || err = "service-not-allowed" then
    ({ s with isListening := false },
      speakText p "Microphone access denied. Please allow microphone access.")
  else (s, [])

/-! ## Effects -/

/-- Whether `initSpeechRecognition` is rebuilt between two renders: its
dependencies are `isListening`, `isMuted`, `startCapturing` (rebuilt on
`isCapturing`, `hasWelcomed`), `stopCapturing` (`isCapturing`) and
`captureImage` (`isMuted`). -/
def recognitionDepsChanged (prev next : Session) : Bool :=
  prev.isListening != next.isListening || prev.isMuted != next.isMuted ||
  prev.isCapturing != next.isCapturing || prev.hasWelcomed != next.hasWelcomed

/-- Whether the dependencies `[isCapturing, captureImage]` of the capture
effect change between two renders. -/
def captureDepsChanged (prev next : Session) : Bool :=
  prev.isCapturing != next.isCapturing || prev.isMuted != next.isMuted

/-- Clean-up of the voice effect: clears the interval without resetting the
ref, then stops the recognizer. -/
def recognitionCleanup (s : Session) : Session × List Effect :=
  match s.captureIntervalRef with
  | some h =>
    ({ s with timers := clearTimer h s.timers },
      [Effect.clearInterval h, Effect.recognitionStop])
  | none => (s, [Effect.recognitionStop])

/-- Body of the voice effect on a re-run, the recognizer being constructed
and started without an exception. -/
def recognitionEffect (p : Platform) : List Effect :=
  if !p.speechRecognition then
    speakText p "This browser does not support speech recognition. Please use Chrome or Edge."
  else
    [Effect.recognitionStop, Effect.recognitionStart] ++
      speakText p "VisionaryAI ready. Say \"open camera\" to begin."

/-- Clean-up returned by the capture effect. -/
def captureCleanup (s : Session) : Session × List Effect :=
  match s.captureIntervalRef with
  | some h =>
    ({ s with captureIntervalRef := none, timers := clearTimer h s.timers },
      [Effect.clearInterval h])
  | none => (s, [])

/-- Body of the capture effect. -/
def captureEffect (s : Session) : Session × List Effect :=
  if s.isCapturing then
    let started := captureImageStart s
    let h := started.1.nextTimer
    ({ started.1 with captureIntervalRef := some h, timers := h :: started.1.timers,
                      nextTimer := h + 1 },
      [Effect.captureImageCall] ++ started.2.1 ++ [Effect.setInterval 7000 h])
  else (s, [])

/-- The `<Webcam>` element is rendered exactly while `isCapturing`: on
mounting, `webcamRef.current` becomes a webcam with a video element, no
stream and no frame yet; on unmounting it becomes `null`. -/
def attachWebcam (prev next : Session) : Session :=
  if !prev.isCapturing && next.isCapturing then
    { next with webcamRef := some { frame := none, video := some { srcObject := none } } }
  else if prev.isCapturing && !next.isCapturing then
    { next with webcamRef := none }
  else next

/-- An effect clean-up or body runs only when the dependencies of its effect
changed. -/
def runIf (changed : Bool) (f : Session → Session × List Effect) (s : Session) :
    Session × List Effect :=
  if changed then f s else (s, [])

/-- React's reaction when the rendered session `prev` has become `next`:
refs are attached, then the clean-ups of the effects whose dependencies
changed run in declaration order, then their bodies.  The voice effect has a
clean-up only where speech recognition exists, the capture effect only if its
last run saw `isCapturing` set. -/
def commit (p : Platform) (prev next : Session) : Session × List Effect :=
  let s0 := attachWebcam prev next
  let c1 := runIf (recognitionDepsChanged prev next && p.speechRecognition) recognitionCleanup s0
  let c2 := runIf (captureDepsChanged prev next && prev.isCapturing) captureCleanup c1.1
  let b1 : List Effect :=
    if recognitionDepsChanged prev next then recognitionEffect p else []
  let b2 := runIf (captureDepsChanged prev next) captureEffect c2.1
  (b2.1, c1.2 ++ c2.2 ++ b1 ++ b2.2)

/-! ## Operations of a session -/

/-- What can happen to a mounted component. -/
inductive Op where
  /-- a press of "Start Camera" -/
  | start
  /-- a press of "Stop Camera" -/
  | stop
  /-- a call of `toggleMute` -/
  | toggleMute
  /-- a recognized, normalized transcript -/
  | voice (transcript : String)
  /-- a press of "Describe Now" -/
  | describeNow
  /-- the interval timer `h` fires -/
  | tick (h : Nat)
  /-- a pending request ends; `muted` is what its call closed over -/
  | completion (muted : Bool) (out : FetchOutcome)
  /-- the host changes the mounted webcam (stream attached, frame ready) -/
  | camera (w : Webcam)
  /-- the recognizer reports an error -/
  | micError (err : String)
deriving DecidableEq

/-- The handler an operation runs. -/
def Op.apply (p : Platform) (op : Op) (s : Session) : Session × List Effect :=
  match op with
  | Op.start => startCapturing p s
  | Op.stop => stopCapturing p s
  | Op.toggleMute => VisionMini.toggleMute p s
  | Op.voice transcript => onresult p transcript s
  | Op.describeNow =>
    if s.isCapturing && !s.isLoading then
      let started := captureImageStart s
      (started.1, Effect.captureImageCall :: started.2.1)
    else (s, [])
  | Op.tick h =>
    if h ∈ s.timers then
      let started := captureImageStart s
      (started.1, Effect.captureImageCall :: started.2.1)
    else (s, [])
  | Op.completion muted out => captureImageResume p muted out s
  | Op.camera w =>
    match s.webcamRef with
    | some _ => ({ s with webcamRef := some w }, [])
    | none => (s, [])
  | Op.micError err => onerror p err s

/-- One operation followed by React's reaction to the state it leaves. -/
def step (p : Platform) (op : Op) (s : Session) : Session × List Effect :=
  let r := op.apply p s
  let c := commit p s r.1
  (c.1, r.2 ++ c.2)

/-- A sequence of operations, each settled before the next. -/
def run (p : Platform) : List Op → Session → Session × List Effect
  | [], s => (s, [])
  | op :: ops, s =>
    let r := step p op s
    let rest := run p ops r.1
    (rest.1, r.2 ++ rest.2)

/-- The platform the component is written for. -/
def Platform.full : Platform := { speechSynthesis := true, speechRecognition := true }

/-- Whether the operation calls `startCapturing()`: the Start button, or a
transcript with "open camera" or "start camera" reaching the dispatcher. -/
def callsStart (p : Platform) : Op → Bool
  | Op.start => true
  | Op.voice transcript =>
    p.speechSynthesis &&
      (includes transcript "open camera" || includes transcript "start camera")
  | _ => false

/-- What each `startCapturing()` that takes effect (one called while Idle)
hands to the host, call by call, along a sequence of operations. -/
def startCalls (p : Platform) : List Op → Session → List (List Effect)
  | [], _ => []
  | op :: ops, s =>
    let rest := startCalls p ops (step p op s).1
    if callsStart p op && !s.isCapturing then (startCapturing p s).2 :: rest else rest

/-- The four flags the effects depend on. -/
def flags (s : Session) : Bool × Bool × Bool × Bool :=
  (s.isCapturing, s.hasWelcomed, s.isMuted, s.isListening)

/-- The tracks of the camera stream reachable from `webcamRef`. -/
def streamTracks (s : Session) : List Track :=
  match s.webcamRef with
  | some w =>
    match w.video with
    | some v =>
      match v.srcObject with
      | some tracks => tracks
      | none => []
    | none => []
  | none => []

/-- Number of live tracks on the camera stream. -/
def liveTracks (s : Session) : Nat :=
  (streamTracks s).countP (fun t => t.live)

/-- The operations C7 ranges over, with the host's own events: everything
but an error of the recognizer. -/
def Op.listed : Op → Bool
  | Op.micError _ => false
  | _ => true

/-! ## Predicates and sample data used in the statements -/

/-- The session has a frame: `webcamRef.current` is set and `getScreenshot()`
returns a non-empty string. -/
def hasFrame (s : Session) : Bool :=
  match s.webcamRef with
  | some w =>
    match w.frame with
    | some imageSrc => imageSrc != ""
    | none => false
  | none => false

/-- A camera with a stream of one live track and a frame ready. -/
def readyCamera : Webcam :=
  { frame := some "data:image/jpeg;base64,AAAA",
    video := some { srcObject := some [{ live := true }] } }

/-- A success answer whose `choices` list is empty. -/
def emptyChoices : FetchOutcome :=
  FetchOutcome.response true { error := none, choices := some [] }

/-- The answer 429 with body `{"error":{"message":"rate limited"}}`. -/
def rateLimited : FetchOutcome :=
  FetchOutcome.response false
    { error := some { message := some "rate limited" }, choices := none }

/-- The session after: camera started, camera ready, "Describe Now" pressed,
request answered with `rateLimited`. -/
def afterFailure : Session :=
  (run Platform.full
    [Op.start, Op.camera readyCamera, Op.describeNow, Op.completion false rateLimited]
    Session.initial).1

/-- The body carries no error message: it has no `error` member, or that
member has no `message`, or the message is the empty string. -/
def noErrorMessage (body : Body) : Bool :=
  match body.error with
  | some e =>
    match e.message with
    | some m => m == ""
    | none => true
  | none => true

/-- The live timers are exactly the one `captureIntervalRef` holds, and the
ref holds one exactly when the capture state is Active. -/
def timerMatches (s : Session) : Prop :=
  s.timers = s.captureIntervalRef.toList ∧ s.captureIntervalRef.isSome = s.isCapturing

instance (s : Session) : Decidable (timerMatches s) :=
  inferInstanceAs (Decidable (_ ∧ _))

/-- What a handler leaves for React, relative to the settled session `s` it
ran in: the timers still match the ref, and either no flag and no ref changed,
or a dependency of the capture effect changed and the ref is as before or
`null`. -/
def handlerLeaves (s r : Session) : Prop :=
  r.timers = r.captureIntervalRef.toList ∧ r.isListening = s.isListening ∧
  ((flags r = flags s ∧ r.captureIntervalRef = s.captureIntervalRef) ∨
   (captureDepsChanged s r = true ∧
     (r.captureIntervalRef = s.captureIntervalRef ∨ r.captureIntervalRef = none)))

instance (s r : Session) : Decidable (handlerLeaves s r) :=
  inferInstanceAs (Decidable (_ ∧ _ ∧ (_ ∨ _)))

/-- A call of `captureImage()` made in session `s` whose request is pending
while the operations `between` take place, and is then answered with `out`:
the call resumes with the `isMuted` it closed over in `s`, against the session
the operations have left. -/
def captureImageAcross (p : Platform) (out : FetchOutcome) (between : List Op) (s : Session) :
    Session × List Effect :=
  let started := captureImageStart s
  if started.2.2 then
    let mid := run p between started.1
    let resumed := captureImageResume p s.isMuted out mid.1
    (resumed.1, started.2.1 ++ mid.2 ++ resumed.2)
  else (started.1, started.2.1)

/-- A platform with speech recognition and without speech synthesis. -/
def Platform.silent : Platform := { speechSynthesis := false, speechRecognition := true }

/-- The session after: camera started, camera ready. -/
def cameraReady : Session :=
  (run Platform.full [Op.start, Op.camera readyCamera] Session.initial).1

/-- A success answer that carries a description. -/
def described : FetchOutcome :=
  FetchOutcome.response true
    { error := none, choices := some [{ message := some { content := some "A cat on a sofa." } }] }

/-! ## Facts about the string operations -/

theorem includesChars_iff (l sub : List Char) :
    includesChars l sub = true ↔ sub <:+: l := by
  induction l with
  | nil => simp [includesChars, List.isEmpty_iff]
  | cons c cs ih =>
    simp only [includesChars, Bool.or_eq_true, ih, List.isPrefixOf_iff_prefix,
      List.infix_cons_iff]

theorem includes_iff (s sub : String) :
    includes s sub = true ↔ sub.toList <:+: s.toList :=
  includesChars_iff _ _

/-- A transcript that contains "unmute audio" contains "mute audio". -/
theorem includes_mute_of_unmute (t : String) (h : includes t "unmute audio" = true) :
    includes t "mute audio" = true := by
  rw [includes_iff] at h ⊢
  have hs : "mute audio".toList <:+: "unmute audio".toList :=
    ⟨['u', 'n'], [], by decide⟩
  exact hs.trans h

theorem includes_append_right (a m : String) : includes (a ++ m) m = true := by
  rw [includes_iff]
  exact ⟨a.toList, [], by simp⟩

/-! ## The dispatcher and the "unmute audio" phrase -/

/-- Whatever the session, a transcript that contains "unmute audio" and no
camera phrase is handled by the "mute audio" branch: the session is muted
afterwards. -/
theorem onresult_unmute_is_muted (p : Platform) (s : Session) (t : String)
    (hp : p.speechSynthesis = true)
    (ht : includes t "unmute audio" = true)
    (h1 : includes t "open camera" = false) (h2 : includes t "start camera" = false)
    (h3 : includes t "close camera" = false) (h4 : includes t "stop camera" = false) :
    (onresult p t s).1.isMuted = true := by
  have hm := includes_mute_of_unmute t ht
  cases hs : s.isMuted <;> simp [onresult, hp, h1, h2, h3, h4, hm, hs, toggleMute]

/-- C1, at the transcript "unmute audio": the handler leaves a muted session
muted and mutes a session that was not, in both cases without reaching the
branch that tests for "unmute audio". -/
theorem onresult_unmute_audio_muted :
    (onresult Platform.full "unmute audio" { Session.initial with isMuted := true }).1.isMuted
        = true ∧
    (onresult Platform.full "unmute audio" { Session.initial with isMuted := true }).2
        = [Effect.synthCancel] ∧
    (onresult Platform.full "unmute audio" Session.initial).1.isMuted = true ∧
    spoken (onresult Platform.full "unmute audio" Session.initial).2 = ["Audio disabled"] := by
  decide

/-! ## Outcomes of a description request -/

theorem captureImageStart_of_hasFrame (s : Session) (h : hasFrame s = true) :
    ∃ imageSrc, captureImageStart s =
      ({ s with isLoading := true }, [Effect.fetch imageSrc], true) := by
  cases hw : s.webcamRef with
  | none => simp [hasFrame, hw] at h
  | some w =>
    cases hf : w.frame with
    | none => simp [hasFrame, hw, hf] at h
    | some imageSrc =>
      have hne : imageSrc ≠ "" := by simpa [hasFrame, hw, hf] using h
      exact ⟨imageSrc, by simp [captureImageStart, hw, hf, hne]⟩

theorem captureImage_of_hasFrame (p : Platform) (out : FetchOutcome) (s : Session)
    (h : hasFrame s = true) :
    ∃ imageSrc, captureImage p out s =
      ((captureImageResume p s.isMuted out { s with isLoading := true }).1,
        Effect.fetch imageSrc ::
          (captureImageResume p s.isMuted out { s with isLoading := true }).2) := by
  obtain ⟨imageSrc, hs⟩ := captureImageStart_of_hasFrame s h
  exact ⟨imageSrc, by simp [captureImage, hs]⟩

/-- C2 as stated fails: in the session `afterFailure`, reached from the
initial one, a request answered with an empty `choices` list sets the
fallback caption, and the Error field still holds the earlier error. -/
theorem empty_choices_keeps_error :
    hasFrame afterFailure = true ∧
    (captureImage Platform.full emptyChoices afterFailure).1.caption = fallbackMessage ∧
    (captureImage Platform.full emptyChoices afterFailure).1.error = "Error: rate limited" ∧
    (captureImage Platform.full emptyChoices afterFailure).1.error ≠ "" := by
  refine ⟨by decide, by decide, by decide, by decide⟩

/-- C2, amended: for every session with a frame, a success answer whose
`choices` list is empty makes the Caption exactly the fallback text and leaves
the Error field as it was, hence empty when it was empty; the same holds
when the answer arrives in any later session `s'`, whatever the call closed
over. -/
theorem empty_choices_caption (p : Platform) (s : Session) (body : Body)
    (hf : hasFrame s = true) (hc : body.choices = some []) :
    (captureImage p (FetchOutcome.response true body) s).1.caption
        = "Could not describe the scene. Please try again." ∧
    (captureImage p (FetchOutcome.response true body) s).1.error = s.error ∧
    (s.error = "" → (captureImage p (FetchOutcome.response true body) s).1.error = "") ∧
    ∀ (muted : Bool) (s' : Session),
      (captureImageResume p muted (FetchOutcome.response true body) s').1.caption
          = "Could not describe the scene. Please try again." ∧
      (captureImageResume p muted (FetchOutcome.response true body) s').1.error = s'.error := by
  have hr : ∀ (muted : Bool) (s' : Session),
      (captureImageResume p muted (FetchOutcome.response true body) s').1.caption
          = "Could not describe the scene. Please try again." ∧
      (captureImageResume p muted (FetchOutcome.response true body) s').1.error = s'.error := by
    intro muted s'
    simp [captureImageResume, tryBody, replyOf, hc, fallbackMessage]
  obtain ⟨imageSrc, hi⟩ := captureImage_of_hasFrame p (FetchOutcome.response true body) s hf
  rw [hi]
  refine ⟨(hr _ _).1, (hr _ _).2, ?_, hr⟩
  intro he
  rw [(hr _ _).2]
  exact he

theorem empty_choices_caption_witness :
    (captureImage Platform.full emptyChoices
        { Session.initial with isCapturing := true, webcamRef := some readyCamera }).1.caption
        = "Could not describe the scene. Please try again." ∧
    (captureImage Platform.full emptyChoices
        { Session.initial with isCapturing := true, webcamRef := some readyCamera }).1.error
        = "" :=
  have h := empty_choices_caption Platform.full
    { Session.initial with isCapturing := true, webcamRef := some readyCamera }
    { error := none, choices := some [] }
    (by decide) rfl
  ⟨h.1, h.2.2.1 rfl⟩

/-- C3: with a frame and a non-success answer, a body `{"error":{"message": m}}`
with `m` non-empty makes both the Caption and the Error field the string
"Error: " followed by `m`, which contains `m`; a body that carries no error
message makes both "Error: API request failed". -/
theorem api_error_caption (p : Platform) (s : Session) (hf : hasFrame s = true) :
    (∀ (m : String) (body : Body), m ≠ "" → body.error = some { message := some m } →
      (captureImage p (FetchOutcome.response false body) s).1.caption = "Error: " ++ m ∧
      (captureImage p (FetchOutcome.response false body) s).1.error = "Error: " ++ m ∧
      includes (captureImage p (FetchOutcome.response false body) s).1.caption m = true) ∧
    (∀ body : Body, noErrorMessage body = true →
      (captureImage p (FetchOutcome.response false body) s).1.caption
          = "Error: API request failed" ∧
      (captureImage p (FetchOutcome.response false body) s).1.error
          = "Error: API request failed") := by
  constructor
  · intro m body hm hb
    obtain ⟨imageSrc, hi⟩ := captureImage_of_hasFrame p (FetchOutcome.response false body) s hf
    have hc : (captureImage p (FetchOutcome.response false body) s).1.caption = "Error: " ++ m := by
      rw [hi]; simp [captureImageResume, tryBody, hb, orDefault, hm]
    refine ⟨hc, ?_, ?_⟩
    · rw [hi]; simp [captureImageResume, tryBody, hb, orDefault, hm]
    · rw [hc]; exact includes_append_right _ _
  · intro body hb
    obtain ⟨imageSrc, hi⟩ := captureImage_of_hasFrame p (FetchOutcome.response false body) s hf
    rw [hi]
    have ho : orDefault (body.error.bind ApiError.message) "API request failed"
        = "API request failed" := by
      cases he : body.error with
      | none => simp [orDefault]
      | some e =>
        cases hm : e.message with
        | none => simp [orDefault, hm]
        | some m =>
          have : m = "" := by simpa [noErrorMessage, he, hm] using hb
          simp [orDefault, hm, this]
    have h2 : orDefault (some "API request failed") "Failed to process image"
        = "API request failed" := by decide
    simp [captureImageResume, tryBody, ho, h2]

theorem api_error_caption_witness :
    (captureImage Platform.full rateLimited
        { Session.initial with isCapturing := true, webcamRef := some readyCamera }).1.caption
        = "Error: " ++ "rate limited" ∧
    (captureImage Platform.full
        (FetchOutcome.response false { error := none, choices := none })
        { Session.initial with isCapturing := true, webcamRef := some readyCamera }).1.error
        = "Error: API request failed" :=
  have h := api_error_caption Platform.full
    { Session.initial with isCapturing := true, webcamRef := some readyCamera }
    (by decide)
  ⟨(h.1 "rate limited" { error := some { message := some "rate limited" }, choices := none }
      (by decide) rfl).1,
   (h.2 { error := none, choices := none } rfl).2⟩

/-! ## Start and stop -/

theorem commit_self (p : Platform) (s : Session) : commit p s s = (s, []) := by
  simp [commit, runIf, attachWebcam, recognitionDepsChanged, captureDepsChanged]

/-- C4: starting while Active returns the session unchanged with no host call
at all, and so does stopping while Idle (no speech, no track stopped, no
timer cleared); React has nothing to react to in either case. -/
theorem start_stop_noop (p : Platform) (s : Session) :
    (s.isCapturing = true →
      startCapturing p s = (s, []) ∧ step p Op.start s = (s, [])) ∧
    (s.isCapturing = false →
      stopCapturing p s = (s, []) ∧ step p Op.stop s = (s, [])) := by
  constructor
  · intro h
    have h1 : startCapturing p s = (s, []) := by simp [startCapturing, h]
    exact ⟨h1, by simp [step, Op.apply, h1, commit_self]⟩
  · intro h
    have h1 : stopCapturing p s = (s, []) := by simp [stopCapturing, h]
    exact ⟨h1, by simp [step, Op.apply, h1, commit_self]⟩

theorem start_stop_noop_witness :
    startCapturing Platform.full
        { Session.initial with isCapturing := true, captureIntervalRef := some 1, timers := [1] }
      = ({ Session.initial with isCapturing := true, captureIntervalRef := some 1,
                                timers := [1] }, []) ∧
    stopCapturing Platform.full Session.initial = (Session.initial, []) :=
  ⟨((start_stop_noop Platform.full
      { Session.initial with isCapturing := true, captureIntervalRef := some 1,
                             timers := [1] }).1 rfl).1,
   ((start_stop_noop Platform.full Session.initial).2 rfl).1⟩

/-! ## React's reaction keeps the flags -/

theorem captureImageStart_flags (s : Session) : flags (captureImageStart s).1 = flags s := by
  unfold captureImageStart
  repeat' split
  all_goals rfl

theorem attachWebcam_flags (prev next : Session) :
    flags (attachWebcam prev next) = flags next := by
  unfold attachWebcam
  repeat' split
  all_goals rfl

theorem recognitionCleanup_flags (s : Session) : flags (recognitionCleanup s).1 = flags s := by
  unfold recognitionCleanup
  split <;> rfl

theorem captureCleanup_flags (s : Session) : flags (captureCleanup s).1 = flags s := by
  unfold captureCleanup
  split <;> rfl

theorem captureEffect_flags (s : Session) : flags (captureEffect s).1 = flags s := by
  unfold captureEffect
  split
  · exact captureImageStart_flags s
  · rfl

theorem runIf_flags (b : Bool) (f : Session → Session × List Effect)
    (hf : ∀ s, flags (f s).1 = flags s) (s : Session) : flags (runIf b f s).1 = flags s := by
  unfold runIf
  split
  · exact hf s
  · rfl

theorem commit_flags_eq (p : Platform) (prev next : Session) :
    flags (commit p prev next).1 = flags next := by
  simp only [commit]
  rw [runIf_flags _ _ captureEffect_flags, runIf_flags _ _ captureCleanup_flags,
    runIf_flags _ _ recognitionCleanup_flags, attachWebcam_flags]

theorem commit_flags (p : Platform) (prev next : Session) :
    (commit p prev next).1.isCapturing = next.isCapturing ∧
    (commit p prev next).1.hasWelcomed = next.hasWelcomed ∧
    (commit p prev next).1.isMuted = next.isMuted ∧
    (commit p prev next).1.isListening = next.isListening := by
  have h := commit_flags_eq p prev next
  simp only [flags, Prod.mk.injEq] at h
  exact h

theorem apply_hasWelcomed (p : Platform) (op : Op) (s : Session)
    (h : s.hasWelcomed = true) : (op.apply p s).1.hasWelcomed = true := by
  cases op <;>
    simp only [Op.apply, startCapturing, stopCapturing, toggleMute, onresult, onerror,
      captureImageResume, captureImageStart, stopStream] <;>
    repeat' split
  all_goals simp_all

theorem step_hasWelcomed (p : Platform) (op : Op) (s : Session)
    (h : s.hasWelcomed = true) : (step p op s).1.hasWelcomed = true := by
  simp only [step, (commit_flags p s (op.apply p s).1).2.1]
  exact apply_hasWelcomed p op s h

theorem run_hasWelcomed (p : Platform) (ops : List Op) (s : Session)
    (h : s.hasWelcomed = true) : (run p ops s).1.hasWelcomed = true := by
  induction ops generalizing s with
  | nil => simpa [run] using h
  | cons op ops ih =>
    simp only [run]
    exact ih _ (step_hasWelcomed p op s h)

theorem apply_of_callsStart (p : Platform) (op : Op) (s : Session)
    (h : callsStart p op = true) : (op.apply p s).1 = (startCapturing p s).1 := by
  cases op <;> simp [callsStart] at h
  case start => rfl
  case voice t =>
    obtain ⟨hp, ht⟩ := h
    have ht' : (includes t "open camera" || includes t "start camera") = true := by
      simpa using ht
    simp only [Op.apply, onresult, hp, ht']
    simp

theorem apply_hasWelcomed_eq (p : Platform) (op : Op) (s : Session)
    (h : callsStart p op = false) : (op.apply p s).1.hasWelcomed = s.hasWelcomed := by
  cases op
  case start => simp [callsStart] at h
  case voice t =>
    simp only [callsStart, Bool.and_eq_false_iff] at h
    simp only [Op.apply, onresult]
    rcases h with h | h
    · simp [h]
    · simp only [h, stopCapturing, toggleMute, captureImageStart, stopStream]
      repeat' split
      all_goals simp_all
  all_goals
    simp only [Op.apply, stopCapturing, toggleMute, onerror, captureImageResume,
      captureImageStart, stopStream]
    repeat' split
    all_goals simp_all

theorem step_callsStart_idle (p : Platform) (op : Op) (s : Session)
    (hop : callsStart p op = true) (h : s.isCapturing = false) :
    (step p op s).1.hasWelcomed = true := by
  show (commit p s (op.apply p s).1).1.hasWelcomed = true
  rw [(commit_flags p s (op.apply p s).1).2.1, apply_of_callsStart p op s hop]
  cases hw : s.hasWelcomed <;> simp [startCapturing, h, hw]

theorem step_callsStart_active (p : Platform) (op : Op) (s : Session)
    (hop : callsStart p op = true) (h : s.isCapturing = true) :
    (step p op s).1.hasWelcomed = s.hasWelcomed := by
  show (commit p s (op.apply p s).1).1.hasWelcomed = s.hasWelcomed
  rw [(commit_flags p s (op.apply p s).1).2.1, apply_of_callsStart p op s hop]
  simp [startCapturing, h]

theorem startCalls_welcomed (p : Platform) (ops : List Op) (s : Session)
    (h : s.hasWelcomed = true) :
    ∃ k, startCalls p ops s = List.replicate k (speakText p openedMessage) := by
  induction ops generalizing s with
  | nil => exact ⟨0, rfl⟩
  | cons op ops ih =>
    obtain ⟨k, hk⟩ := ih (step p op s).1 (step_hasWelcomed p op s h)
    cases hop : callsStart p op
    · exact ⟨k, by simp [startCalls, hop, hk]⟩
    · cases hc : s.isCapturing
      · refine ⟨k + 1, ?_⟩
        simp [startCalls, hop, hc, hk, startCapturing, h, List.replicate_succ]
      · exact ⟨k, by simp [startCalls, hop, hc, hk]⟩

theorem startCalls_shape (p : Platform) (ops : List Op) (s : Session)
    (h : s.hasWelcomed = false) :
    startCalls p ops s = [] ∨
    ∃ k, startCalls p ops s =
      speakText p welcomeMessage :: List.replicate k (speakText p openedMessage) := by
  induction ops generalizing s with
  | nil => exact Or.inl rfl
  | cons op ops ih =>
    cases hop : callsStart p op
    · have hw : (step p op s).1.hasWelcomed = false := by
        simp only [step, (commit_flags p s (op.apply p s).1).2.1,
          apply_hasWelcomed_eq p op s hop, h]
      simpa [startCalls, hop] using ih _ hw
    · cases hc : s.isCapturing
      · obtain ⟨k, hk⟩ := startCalls_welcomed p ops _ (step_callsStart_idle p op s hop hc)
        refine Or.inr ⟨k, ?_⟩
        simp [startCalls, hop, hc, hk, startCapturing, h]
      · have hw : (step p op s).1.hasWelcomed = false := by
          rw [step_callsStart_active p op s hop hc, h]
        simpa [startCalls, hop, hc] using ih _ hw

/-- C5: along every sequence of operations from the initial session (in
particular every sequence of start and stop calls), the calls of
`startCapturing` that take effect speak, in order, the welcome message once
and then only the "Camera opened" message; and once the welcomed flag is set
no sequence of operations clears it. -/
theorem welcome_once (p : Platform) (ops : List Op) :
    (startCalls p ops Session.initial = [] ∨
      ∃ k, startCalls p ops Session.initial =
        speakText p "Welcome to VisionaryAI. Now describing your surroundings." ::
          List.replicate k (speakText p "Camera opened. Now describing your surroundings.")) ∧
    (∀ s : Session, s.hasWelcomed = true → (run p ops s).1.hasWelcomed = true) :=
  ⟨startCalls_shape p ops Session.initial rfl, fun s h => run_hasWelcomed p ops s h⟩

theorem welcome_once_witness :
    startCalls Platform.full [Op.start, Op.stop, Op.start, Op.start, Op.stop, Op.start]
        Session.initial
      = [[Effect.synthCancel, Effect.synthSpeak welcomeMessage],
         [Effect.synthCancel, Effect.synthSpeak openedMessage],
         [Effect.synthCancel, Effect.synthSpeak openedMessage]] ∧
    (run Platform.full [Op.stop, Op.toggleMute, Op.micError "not-allowed"]
        { Session.initial with hasWelcomed := true, isCapturing := true }).1.hasWelcomed
      = true :=
  ⟨by decide,
   (welcome_once Platform.full [Op.stop, Op.toggleMute, Op.micError "not-allowed"]).2
     { Session.initial with hasWelcomed := true, isCapturing := true } rfl⟩

/-! ## Stopping releases the camera and the timer -/

theorem clearTimer_not_mem (h : Nat) (timers : List Nat) : h ∉ clearTimer h timers := by
  simp [clearTimer]

theorem countP_live_stopAll (tracks : List Track) :
    (stopAll tracks).countP (fun t => t.live) = 0 := by
  induction tracks with
  | nil => rfl
  | cons t ts ih => simp [stopAll, List.countP_cons]

/-- The tracks of the stream behind a `webcamRef` value. -/
theorem streamTracks_webcam (s : Session) :
    streamTracks s = streamTracks { Session.initial with webcamRef := s.webcamRef } := rfl

theorem stopStream_tracks (webcam : Option Webcam) :
    streamTracks { Session.initial with webcamRef := (stopStream webcam).1 }
      = stopAll (streamTracks { Session.initial with webcamRef := webcam }) := by
  cases webcam with
  | none => rfl
  | some w =>
    cases hv : w.video with
    | none => simp [stopStream, streamTracks, hv, stopAll]
    | some v =>
      cases ht : v.srcObject with
      | none => simp [stopStream, streamTracks, hv, ht, stopAll]
      | some tracks => simp [stopStream, streamTracks, hv, ht]

theorem stopStream_calls (webcam : Option Webcam) :
    (stopStream webcam).2
      = stopCalls (streamTracks { Session.initial with webcamRef := webcam }) := by
  cases webcam with
  | none => rfl
  | some w =>
    cases hv : w.video with
    | none => simp [stopStream, streamTracks, hv, stopCalls]
    | some v =>
      cases ht : v.srcObject with
      | none => simp [stopStream, streamTracks, hv, ht, stopCalls]
      | some tracks => simp [stopStream, streamTracks, hv, ht]

theorem stopCapturing_webcamRef (p : Platform) (s : Session) (hc : s.isCapturing = true) :
    (stopCapturing p s).1.webcamRef = (stopStream s.webcamRef).1 := by
  cases hr : s.captureIntervalRef <;> simp [stopCapturing, hc, hr]

theorem stopCalls_sub (p : Platform) (s : Session) (hc : s.isCapturing = true) (e : Effect)
    (he : e ∈ (stopStream s.webcamRef).2) : e ∈ (stopCapturing p s).2 := by
  cases hr : s.captureIntervalRef <;> simp [stopCapturing, hc, hr, he]

theorem attachWebcam_ref (prev next : Session) :
    (attachWebcam prev next).captureIntervalRef = next.captureIntervalRef ∧
    (attachWebcam prev next).timers = next.timers ∧
    (attachWebcam prev next).nextTimer = next.nextTimer := by
  unfold attachWebcam
  repeat' split
  all_goals simp

theorem recognitionCleanup_ref (s : Session) :
    (recognitionCleanup s).1.captureIntervalRef = s.captureIntervalRef := by
  unfold recognitionCleanup
  split <;> rfl

theorem captureCleanup_ref_none (s : Session) (h : s.captureIntervalRef = none) :
    (captureCleanup s).1.captureIntervalRef = none := by
  simp [captureCleanup, h]

theorem runIf_ref_none (b : Bool) (f : Session → Session × List Effect) (s : Session)
    (hf : (f s).1.captureIntervalRef = none) (h : s.captureIntervalRef = none) :
    (runIf b f s).1.captureIntervalRef = none := by
  unfold runIf
  split
  · exact hf
  · exact h

/-- When the new session is Idle with a `null` ref, React's reaction leaves
the ref `null`. -/
theorem commit_ref_none (p : Platform) (prev next : Session)
    (href : next.captureIntervalRef = none) (hidle : next.isCapturing = false) :
    (commit p prev next).1.captureIntervalRef = none := by
  have h0 : (attachWebcam prev next).captureIntervalRef = none := by
    rw [(attachWebcam_ref prev next).1, href]
  have h1 : (runIf (recognitionDepsChanged prev next && p.speechRecognition)
      recognitionCleanup (attachWebcam prev next)).1.captureIntervalRef = none :=
    runIf_ref_none _ _ _ (by rw [recognitionCleanup_ref, h0]) h0
  have h2 : (runIf (captureDepsChanged prev next && prev.isCapturing) captureCleanup
      (runIf (recognitionDepsChanged prev next && p.speechRecognition)
        recognitionCleanup (attachWebcam prev next)).1).1.captureIntervalRef = none :=
    runIf_ref_none _ _ _ (captureCleanup_ref_none _ h1) h1
  have hf : flags (runIf (captureDepsChanged prev next && prev.isCapturing) captureCleanup
      (runIf (recognitionDepsChanged prev next && p.speechRecognition)
        recognitionCleanup (attachWebcam prev next)).1).1 = flags next := by
    rw [runIf_flags _ _ captureCleanup_flags, runIf_flags _ _ recognitionCleanup_flags,
      attachWebcam_flags]
  have hi : (runIf (captureDepsChanged prev next && prev.isCapturing) captureCleanup
      (runIf (recognitionDepsChanged prev next && p.speechRecognition)
        recognitionCleanup (attachWebcam prev next)).1).1.isCapturing = false := by
    simp only [flags, Prod.mk.injEq] at hf
    rw [hf.1, hidle]
  simp only [commit]
  apply runIf_ref_none _ _ _ _ h2
  simp [captureEffect, hi, h2]

/-- C6: stopping while Active, whatever tracks the camera stream has, calls
`stop()` on each of them so that the same stream has no live track left,
clears the timer held in `captureIntervalRef` (it is no longer live) and
resets the ref to `null`, and leaves the capture state Idle; after React's
reaction the ref is still `null` and the state still Idle. -/
theorem stop_releases (p : Platform) (s : Session) (hc : s.isCapturing = true) :
    streamTracks (stopCapturing p s).1 = stopAll (streamTracks s) ∧
    (streamTracks (stopCapturing p s).1).length = (streamTracks s).length ∧
    liveTracks (stopCapturing p s).1 = 0 ∧
    (∀ i, i < (streamTracks s).length → Effect.trackStop i ∈ (stopCapturing p s).2) ∧
    (stopCapturing p s).1.captureIntervalRef = none ∧
    (∀ h, s.captureIntervalRef = some h →
      Effect.clearInterval h ∈ (stopCapturing p s).2 ∧ h ∉ (stopCapturing p s).1.timers) ∧
    (stopCapturing p s).1.isCapturing = false ∧
    (step p Op.stop s).1.captureIntervalRef = none ∧
    (step p Op.stop s).1.isCapturing = false := by
  have ht : streamTracks (stopCapturing p s).1 = stopAll (streamTracks s) := by
    rw [streamTracks_webcam (stopCapturing p s).1, stopCapturing_webcamRef p s hc,
      stopStream_tracks]
    rfl
  have hcalls : ∀ i, i < (streamTracks s).length →
      Effect.trackStop i ∈ (stopCapturing p s).2 := by
    intro i hi
    apply stopCalls_sub p s hc
    rw [stopStream_calls]
    exact List.mem_map.2 ⟨i, List.mem_range.2 hi, rfl⟩
  have href : (stopCapturing p s).1.captureIntervalRef = none := by
    cases hr : s.captureIntervalRef <;> simp [stopCapturing, hc, hr]
  have hidle : (stopCapturing p s).1.isCapturing = false := by
    cases hr : s.captureIntervalRef <;> simp [stopCapturing, hc, hr]
  refine ⟨ht, ?_, ?_, hcalls, href, ?_, hidle, ?_, ?_⟩
  · rw [ht]; simp [stopAll]
  · simp only [liveTracks, ht]; exact countP_live_stopAll _
  · intro h hh
    refine ⟨by simp [stopCapturing, hc, hh], ?_⟩
    have : (stopCapturing p s).1.timers = clearTimer h s.timers := by
      simp [stopCapturing, hc, hh]
    rw [this]
    exact clearTimer_not_mem h s.timers
  · show (commit p s (stopCapturing p s).1).1.captureIntervalRef = none
    exact commit_ref_none p s _ href hidle
  · show (commit p s (stopCapturing p s).1).1.isCapturing = false
    rw [(commit_flags p s _).1, hidle]

theorem stop_releases_witness :
    liveTracks (stopCapturing Platform.full
      { Session.initial with isCapturing := true, captureIntervalRef := some 1, timers := [1],
                             webcamRef := some readyCamera }).1 = 0 ∧
    (stopCapturing Platform.full
      { Session.initial with isCapturing := true, captureIntervalRef := some 1, timers := [1],
                             webcamRef := some readyCamera }).1.captureIntervalRef = none :=
  have h := stop_releases Platform.full
    { Session.initial with isCapturing := true, captureIntervalRef := some 1, timers := [1],
                           webcamRef := some readyCamera } rfl
  ⟨h.2.2.1, h.2.2.2.2.1⟩

/-! ## The timer exists exactly while Active -/

theorem clearTimer_toList (h : Nat) : clearTimer h (some h : Option Nat).toList = [] := by
  simp [clearTimer]

theorem clearTimer_nil (h : Nat) : clearTimer h [] = [] := rfl

theorem handlerLeaves_refl (s : Session) (h : timerMatches s) : handlerLeaves s s :=
  ⟨h.1, rfl, Or.inl ⟨rfl, rfl⟩⟩

theorem startCapturing_leaves (p : Platform) (s : Session) (h : timerMatches s) :
    handlerLeaves s (startCapturing p s).1 := by
  cases hc : s.isCapturing
  · cases hw : s.hasWelcomed <;>
      exact ⟨by simpa [startCapturing, hc, hw] using h.1, by simp [startCapturing, hc, hw],
        Or.inr ⟨by simp [startCapturing, hc, hw, captureDepsChanged],
          Or.inl (by simp [startCapturing, hc, hw])⟩⟩
  · have : startCapturing p s = (s, []) := by simp [startCapturing, hc]
    rw [this]
    exact handlerLeaves_refl s h

theorem stopCapturing_leaves (p : Platform) (s : Session) (h : timerMatches s) :
    handlerLeaves s (stopCapturing p s).1 := by
  cases hc : s.isCapturing
  · have : stopCapturing p s = (s, []) := by simp [stopCapturing, hc]
    rw [this]
    exact handlerLeaves_refl s h
  · cases hr : s.captureIntervalRef with
    | none =>
      refine ⟨?_, by simp [stopCapturing, hc, hr], Or.inr ⟨?_, Or.inr ?_⟩⟩
      · have := h.1
        simp [stopCapturing, hc, hr] at this ⊢
        exact this
      · simp [stopCapturing, hc, hr, captureDepsChanged]
      · simp [stopCapturing, hc, hr]
    | some k =>
      refine ⟨?_, by simp [stopCapturing, hc, hr], Or.inr ⟨?_, Or.inr ?_⟩⟩
      · have := h.1
        rw [hr] at this
        simp [stopCapturing, hc, hr, this, clearTimer]
      · simp [stopCapturing, hc, hr, captureDepsChanged]
      · simp [stopCapturing, hc, hr]

theorem toggleMute_leaves (p : Platform) (s : Session) (h : timerMatches s) :
    handlerLeaves s (toggleMute p s).1 :=
  ⟨h.1, rfl, Or.inr ⟨by cases hm : s.isMuted <;> simp [toggleMute, captureDepsChanged, hm],
    Or.inl rfl⟩⟩

theorem captureImageStart_leaves (s : Session) (h : timerMatches s) :
    handlerLeaves s (captureImageStart s).1 := by
  unfold captureImageStart
  repeat' split
  all_goals exact ⟨h.1, rfl, Or.inl ⟨rfl, rfl⟩⟩

theorem captureImageResume_leaves (p : Platform) (muted : Bool) (out : FetchOutcome)
    (s : Session) (h : timerMatches s) :
    handlerLeaves s (captureImageResume p muted out s).1 := by
  unfold captureImageResume
  repeat' split
  all_goals exact ⟨h.1, rfl, Or.inl ⟨rfl, rfl⟩⟩

theorem onresult_leaves (p : Platform) (t : String) (s : Session) (h : timerMatches s) :
    handlerLeaves s (onresult p t s).1 := by
  unfold onresult
  split
  · exact handlerLeaves_refl s h
  · dsimp only
    split
    · exact startCapturing_leaves p s h
    · split
      · exact stopCapturing_leaves p s h
      · split
        · split
          · exact toggleMute_leaves p s h
          · exact handlerLeaves_refl s h
        · split
          · split
            · exact toggleMute_leaves p s h
            · exact handlerLeaves_refl s h
          · split
            · split
              · exact captureImageStart_leaves s h
              · exact handlerLeaves_refl s h
            · exact handlerLeaves_refl s h

theorem apply_leaves (p : Platform) (op : Op) (s : Session) (hop : op.listed = true)
    (h : timerMatches s) : handlerLeaves s (op.apply p s).1 := by
  cases op
  case start => exact startCapturing_leaves p s h
  case stop => exact stopCapturing_leaves p s h
  case toggleMute => exact toggleMute_leaves p s h
  case voice t => exact onresult_leaves p t s h
  case describeNow =>
    simp only [Op.apply]
    split
    · exact captureImageStart_leaves s h
    · exact handlerLeaves_refl s h
  case tick k =>
    simp only [Op.apply]
    split
    · exact captureImageStart_leaves s h
    · exact handlerLeaves_refl s h
  case completion muted out => exact captureImageResume_leaves p muted out s h
  case camera w =>
    simp only [Op.apply]
    split
    · exact ⟨h.1, rfl, Or.inl ⟨rfl, rfl⟩⟩
    · exact handlerLeaves_refl s h
  case micError err => simp [Op.listed] at hop

theorem captureImageStart_ref (s : Session) :
    (captureImageStart s).1.captureIntervalRef = s.captureIntervalRef ∧
    (captureImageStart s).1.timers = s.timers ∧
    (captureImageStart s).1.nextTimer = s.nextTimer ∧
    (captureImageStart s).1.isCapturing = s.isCapturing := by
  unfold captureImageStart
  repeat' split
  all_goals simp

theorem recognitionCleanup_timers (s : Session)
    (h : s.timers = s.captureIntervalRef.toList) :
    (recognitionCleanup s).1.timers = s.captureIntervalRef.toList ∨
    (recognitionCleanup s).1.timers = [] := by
  cases hr : s.captureIntervalRef with
  | none => left; simp [recognitionCleanup, hr, h]
  | some k => right; simp [recognitionCleanup, hr, h, clearTimer]

theorem captureCleanup_clears (s : Session)
    (h : s.timers = s.captureIntervalRef.toList ∨ s.timers = []) :
    (captureCleanup s).1.captureIntervalRef = none ∧ (captureCleanup s).1.timers = [] := by
  cases hr : s.captureIntervalRef with
  | none =>
    rcases h with h | h <;> simp [captureCleanup, hr, h]
  | some k =>
    rcases h with h | h <;> simp [captureCleanup, hr, h, clearTimer]

theorem captureEffect_matches (s : Session)
    (href : s.captureIntervalRef = none) (ht : s.timers = []) :
    timerMatches (captureEffect s).1 := by
  cases hc : s.isCapturing
  · simp [captureEffect, hc, timerMatches, href, ht]
  · have h := captureImageStart_ref s
    simp [captureEffect, hc, timerMatches, h.2.1, h.2.2.2, ht]

theorem runIf_false (f : Session → Session × List Effect) (s : Session) :
    runIf false f s = (s, []) := rfl

theorem runIf_true (f : Session → Session × List Effect) (s : Session) :
    runIf true f s = f s := rfl

/-- React's reaction restores the match between timer and capture state. -/
theorem commit_matches (p : Platform) (prev next : Session)
    (hprev : timerMatches prev) (hl : handlerLeaves prev next) :
    timerMatches (commit p prev next).1 := by
  obtain ⟨htim, _, hcase⟩ := hl
  rcases hcase with ⟨hflags, href⟩ | ⟨hdeps, href⟩
  · simp only [flags, Prod.mk.injEq] at hflags
    obtain ⟨hc, hw, hm, hlis⟩ := hflags
    have h1 : recognitionDepsChanged prev next = false := by
      simp [recognitionDepsChanged, hc, hw, hm, hlis]
    have h2 : captureDepsChanged prev next = false := by
      simp [captureDepsChanged, hc, hm]
    have h3 : attachWebcam prev next = next := by
      cases hn : next.isCapturing <;> simp [attachWebcam, hc, hn]
    simp only [commit, h1, h2, h3, Bool.false_and, runIf_false]
    refine ⟨htim, ?_⟩
    rw [href, hprev.2, hc]
  · have a := attachWebcam_ref prev next
    have t0 : (attachWebcam prev next).timers
        = (attachWebcam prev next).captureIntervalRef.toList := by
      rw [a.1, a.2.1, htim]
    have hc1 : ∀ b : Bool,
        (runIf b recognitionCleanup (attachWebcam prev next)).1.captureIntervalRef
            = next.captureIntervalRef ∧
        ((runIf b recognitionCleanup (attachWebcam prev next)).1.timers
            = next.captureIntervalRef.toList ∨
         (runIf b recognitionCleanup (attachWebcam prev next)).1.timers = []) := by
      intro b
      cases b
      · exact ⟨a.1, Or.inl (by rw [← a.1]; exact t0)⟩
      · refine ⟨by rw [runIf_true, recognitionCleanup_ref, a.1], ?_⟩
        have := recognitionCleanup_timers _ t0
        rw [a.1] at this
        rw [runIf_true]
        exact this
    have hc2 : ∀ b : Bool,
        (runIf (captureDepsChanged prev next && prev.isCapturing) captureCleanup
          (runIf b recognitionCleanup (attachWebcam prev next)).1).1.captureIntervalRef = none ∧
        (runIf (captureDepsChanged prev next && prev.isCapturing) captureCleanup
          (runIf b recognitionCleanup (attachWebcam prev next)).1).1.timers = [] := by
      intro b
      obtain ⟨r1, t1⟩ := hc1 b
      cases hp : prev.isCapturing
      · have hnone : prev.captureIntervalRef = none := by
          have := hprev.2
          rw [hp] at this
          simpa using this
        have hn : next.captureIntervalRef = none := by
          rcases href with h | h
          · rw [h, hnone]
          · exact h
        simp only [hdeps, Bool.and_false, runIf_false]
        refine ⟨by rw [r1, hn], ?_⟩
        rcases t1 with t1 | t1
        · rw [t1, hn]; rfl
        · exact t1
      · simp only [hdeps, Bool.and_true, runIf_true]
        apply captureCleanup_clears
        rw [r1]
        exact t1
    have := hc2 (recognitionDepsChanged prev next && p.speechRecognition)
    simp only [commit]
    rw [hdeps] at this ⊢
    rw [runIf_true]
    exact captureEffect_matches _ this.1 this.2

theorem step_matches (p : Platform) (op : Op) (s : Session) (hop : op.listed = true)
    (h : timerMatches s) : timerMatches (step p op s).1 :=
  commit_matches p s (op.apply p s).1 h (apply_leaves p op s hop h)

theorem run_matches (p : Platform) (ops : List Op) (s : Session)
    (hops : ∀ op ∈ ops, op.listed = true) (h : timerMatches s) :
    timerMatches (run p ops s).1 := by
  induction ops generalizing s with
  | nil => exact h
  | cons op ops ih =>
    simp only [run]
    exact ih _ (fun o ho => hops o (List.mem_cons_of_mem _ ho))
      (step_matches p op s (hops op (List.mem_cons_self _ _)) h)

/-- C7: in every session reached from the initial one by operations other
than a recognizer error (start, stop, voice commands, mute toggling, capture
requests and their completions, timer ticks, camera events), each settled by
React's reaction, the live timers are exactly the one held in
`captureIntervalRef`, and there is one if and only if the capture state is
Active. -/
theorem timer_iff_active (p : Platform) (ops : List Op)
    (hops : ∀ op ∈ ops, op.listed = true) :
    (run p ops Session.initial).1.timers
        = (run p ops Session.initial).1.captureIntervalRef.toList ∧
    ((run p ops Session.initial).1.timers ≠ [] ↔
        (run p ops Session.initial).1.isCapturing = true) ∧
    ((∃ h, (run p ops Session.initial).1.captureIntervalRef = some h ∧
        h ∈ (run p ops Session.initial).1.timers) ↔
      (run p ops Session.initial).1.isCapturing = true) := by
  have h := run_matches p ops Session.initial hops ⟨rfl, rfl⟩
  obtain ⟨h1, h2⟩ := h
  refine ⟨h1, ?_, ?_⟩
  · rw [h1, ← h2]
    cases (run p ops Session.initial).1.captureIntervalRef <;> simp
  · rw [h1, ← h2]
    cases (run p ops Session.initial).1.captureIntervalRef <;> simp

theorem timer_iff_active_witness :
    (run Platform.full
        [Op.voice "open camera", Op.camera readyCamera, Op.tick 1, Op.toggleMute,
          Op.completion false emptyChoices, Op.voice "stop camera", Op.start]
        Session.initial).1.timers
      = (run Platform.full
        [Op.voice "open camera", Op.camera readyCamera, Op.tick 1, Op.toggleMute,
          Op.completion false emptyChoices, Op.voice "stop camera", Op.start]
        Session.initial).1.captureIntervalRef.toList :=
  (timer_iff_active Platform.full
    [Op.voice "open camera", Op.camera readyCamera, Op.tick 1, Op.toggleMute,
      Op.completion false emptyChoices, Op.voice "stop camera", Op.start]
    (by decide)).1

/-- An error of the recognizer is outside C7: when microphone access is denied
while Active, the clean-up of the voice effect clears the interval and the
capture effect does not run again, so the session stays Active with no live
timer. -/
theorem mic_denied_clears_timer :
    (run Platform.full [Op.start, Op.micError "not-allowed"] Session.initial).1.isCapturing
        = true ∧
    (run Platform.full [Op.start, Op.micError "not-allowed"] Session.initial).1.timers = [] ∧
    (run Platform.full [Op.start, Op.micError "not-allowed"]
        Session.initial).1.captureIntervalRef = some 1 := by
  decide

/-! ## Opening the camera by voice -/

theorem count_call_speakText (p : Platform) (text : String) :
    (speakText p text).count Effect.captureImageCall = 0 := by
  cases hp : p.speechSynthesis <;> simp [speakText, hp, List.count_cons]

theorem count_call_recognitionEffect (p : Platform) :
    (recognitionEffect p).count Effect.captureImageCall = 0 := by
  cases hr : p.speechRecognition <;>
    simp [recognitionEffect, hr, List.count_cons, count_call_speakText]

theorem count_call_recognitionCleanup (s : Session) :
    (recognitionCleanup s).2.count Effect.captureImageCall = 0 := by
  cases hr : s.captureIntervalRef <;> simp [recognitionCleanup, hr, List.count_cons]

theorem count_call_captureImageStart (s : Session) :
    (captureImageStart s).2.1.count Effect.captureImageCall = 0 := by
  unfold captureImageStart
  repeat' split
  all_goals simp [List.count_cons]

/-- What React does when the camera goes from Idle to Active. -/
theorem commit_mount (p : Platform) (prev next : Session)
    (hprev : prev.isCapturing = false) (hnext : next.isCapturing = true) :
    (commit p prev next).2 =
      (if p.speechRecognition then (recognitionCleanup next).2 else []) ++
        recognitionEffect p ++ [Effect.captureImageCall, Effect.setInterval 7000 next.nextTimer] ∧
    (commit p prev next).1.captureIntervalRef = some next.nextTimer ∧
    next.nextTimer ∈ (commit p prev next).1.timers ∧
    (commit p prev next).1.isCapturing = true := by
  have hr : recognitionDepsChanged prev next = true := by
    simp [recognitionDepsChanged, hprev, hnext]
  have hd : captureDepsChanged prev next = true := by
    simp [captureDepsChanged, hprev, hnext]
  have ha : attachWebcam prev next =
      { next with webcamRef := some { frame := none, video := some { srcObject := none } } } := by
    simp [attachWebcam, hprev, hnext]
  simp only [commit, hr, hd, ha, hprev, Bool.true_and, Bool.and_false, runIf_false, runIf_true,
    if_true]
  cases hs : p.speechRecognition <;> cases hi : next.captureIntervalRef <;>
    simp [runIf, recognitionCleanup, captureEffect, captureImageStart, hnext, hi]

/-- Where `window.speechSynthesis` exists, a transcript that contains
"open camera", whatever else it contains, dispatched while Idle makes the
capture state Active; the handler speaks the opening announcement and React's
reaction calls `captureImage` exactly once and then arms `setInterval` with
7000 ms, whose handle is kept in `captureIntervalRef`, is live, and whose
firing calls `captureImage` again. -/
theorem open_camera_starts (p : Platform) (s : Session) (t : String)
    (hp : p.speechSynthesis = true) (ht : includes t "open camera" = true)
    (hc : s.isCapturing = false) :
    (step p (Op.voice t) s).1.isCapturing = true ∧
    (step p (Op.voice t) s).2 =
      Effect.synthCancel ::
        (speakText p (if s.hasWelcomed then openedMessage else welcomeMessage) ++
          (if p.speechRecognition then (recognitionCleanup s).2 else []) ++
          recognitionEffect p ++
          [Effect.captureImageCall, Effect.setInterval 7000 s.nextTimer]) ∧
    (step p (Op.voice t) s).2.count Effect.captureImageCall = 1 ∧
    (step p (Op.voice t) s).1.captureIntervalRef = some s.nextTimer ∧
    s.nextTimer ∈ (step p (Op.voice t) s).1.timers ∧
    ((Op.tick s.nextTimer).apply p (step p (Op.voice t) s).1).2.head?
      = some Effect.captureImageCall := by
  have hap : (Op.voice t).apply p s
      = ((startCapturing p s).1, Effect.synthCancel :: (startCapturing p s).2) := by
    simp [Op.apply, onresult, hp, ht]
  have hst : (startCapturing p s).1.isCapturing = true ∧
      (startCapturing p s).1.nextTimer = s.nextTimer ∧
      (startCapturing p s).1.captureIntervalRef = s.captureIntervalRef ∧
      (startCapturing p s).1.timers = s.timers ∧
      (startCapturing p s).2
        = speakText p (if s.hasWelcomed then openedMessage else welcomeMessage) := by
    cases hw : s.hasWelcomed <;> simp [startCapturing, hc, hw]
  obtain ⟨h1, h2, h3, h4, h5⟩ := hst
  have hrc : (recognitionCleanup (startCapturing p s).1).2 = (recognitionCleanup s).2 := by
    simp only [recognitionCleanup, h3]
    cases s.captureIntervalRef <;> rfl
  have hm := commit_mount p s (startCapturing p s).1 hc h1
  rw [h2, hrc] at hm
  obtain ⟨m1, m2, m3, m4⟩ := hm
  have htrace : (step p (Op.voice t) s).2 =
      Effect.synthCancel ::
        (speakText p (if s.hasWelcomed then openedMessage else welcomeMessage) ++
          (if p.speechRecognition then (recognitionCleanup s).2 else []) ++
          recognitionEffect p ++
          [Effect.captureImageCall, Effect.setInterval 7000 s.nextTimer]) := by
    simp only [step, hap, m1, h5]
    simp
  have hstate : (step p (Op.voice t) s).1 = (commit p s (startCapturing p s).1).1 := by
    simp only [step, hap]
  refine ⟨by rw [hstate]; exact m4, htrace, ?_, by rw [hstate]; exact m2,
    by rw [hstate]; exact m3, ?_⟩
  · rw [htrace]
    have hcl : (if p.speechRecognition = true then (recognitionCleanup s).2 else []).count
        Effect.captureImageCall = 0 := by
      split
      · exact count_call_recognitionCleanup s
      · rfl
    simp [List.count_cons, List.count_append, count_call_speakText,
      count_call_recognitionEffect, hcl]
  · rw [hstate]
    simp only [Op.apply, m3, if_true]
    rfl

theorem open_camera_starts_witness :
    (step Platform.full (Op.voice "please open camera and mute audio") Session.initial).2
      = [Effect.synthCancel, Effect.synthCancel, Effect.synthSpeak welcomeMessage,
         Effect.recognitionStop, Effect.recognitionStop, Effect.recognitionStart,
         Effect.synthCancel,
         Effect.synthSpeak "VisionaryAI ready. Say \"open camera\" to begin.",
         Effect.captureImageCall, Effect.setInterval 7000 1] :=
  (open_camera_starts Platform.full Session.initial "please open camera and mute audio"
    rfl (by decide) rfl).2.1

/-- C8, on a platform without speech synthesis: the handler's first
statement `window.speechSynthesis.cancel()` throws before the transcript
"open camera" is looked at, so the session stays Idle, `captureImage` is not
called and no timer is armed; `speakText` tests for the same capability and
does nothing there, and the Start button on the same platform does open the
camera. -/
theorem open_camera_without_synthesis :
    step Platform.silent (Op.voice "open camera") Session.initial
      = (Session.initial, [Effect.typeError]) ∧
    (step Platform.silent (Op.voice "open camera") Session.initial).1.isCapturing = false ∧
    (step Platform.silent (Op.voice "open camera") Session.initial).2.count
      Effect.captureImageCall = 0 ∧
    (step Platform.silent (Op.voice "open camera") Session.initial).1.timers = [] ∧
    speakText Platform.silent welcomeMessage = [] ∧
    (step Platform.silent Op.start Session.initial).1.isCapturing = true ∧
    (step Platform.silent Op.start Session.initial).2
      = [Effect.recognitionStop, Effect.recognitionStop, Effect.recognitionStart,
         Effect.captureImageCall, Effect.setInterval 7000 1] := by
  decide

/-! ## Speech and the muted flag -/

theorem spoken_speakText (p : Platform) (hp : p.speechSynthesis = true) (text : String) :
    spoken (speakText p text) = [text] := by
  simp [speakText, hp, spoken]

theorem spoken_append (a b : List Effect) : spoken (a ++ b) = spoken a ++ spoken b := by
  induction a with
  | nil => rfl
  | cons e es ih => cases e <;> simp [spoken, ih]

theorem spoken_stopCalls (tracks : List Track) : spoken (stopCalls tracks) = [] := by
  unfold stopCalls
  induction (List.range tracks.length) with
  | nil => rfl
  | cons i is ih => simpa [spoken] using ih

/-- What a resumed `captureImage` hands to the host: nothing when it closed
over a set muted flag, else one `speakText`. -/
theorem captureImageResume_speech (p : Platform) (muted : Bool) (out : FetchOutcome)
    (s : Session) :
    ∃ text, (captureImageResume p muted out s).2 = if muted then [] else speakText p text := by
  cases h : tryBody out with
  | error m =>
    exact ⟨"Error processing image. Please try again.",
      by cases muted <;> simp [captureImageResume, h]⟩
  | ok reply =>
    cases reply with
    | none => exact ⟨fallbackMessage, by cases muted <;> simp [captureImageResume, h]⟩
    | some r =>
      by_cases hr : r = ""
      · exact ⟨fallbackMessage, by cases muted <;> simp [captureImageResume, h, hr]⟩
      · exact ⟨r, by cases muted <;> simp [captureImageResume, h, hr]⟩

theorem captureImageResume_caption (p : Platform) (muted muted' : Bool) (out : FetchOutcome)
    (s s' : Session) :
    (captureImageResume p muted out s).1.caption
      = (captureImageResume p muted' out s').1.caption := by
  unfold captureImageResume
  repeat' split
  all_goals simp_all

theorem captureImageAcross_nil (p : Platform) (out : FetchOutcome) (s : Session) :
    captureImageAcross p out [] s = captureImage p out s := by
  cases h : (captureImageStart s).2.2 <;> simp [captureImageAcross, captureImage, h, run]

theorem captureImageAcross_of_hasFrame (p : Platform) (out : FetchOutcome)
    (between : List Op) (s : Session) (hf : hasFrame s = true) :
    captureImageAcross p out between s =
      ((captureImageResume p s.isMuted out (run p between (captureImageStart s).1).1).1,
        (captureImageStart s).2.1 ++ (run p between (captureImageStart s).1).2 ++
          (captureImageResume p s.isMuted out (run p between (captureImageStart s).1).1).2) := by
  obtain ⟨imageSrc, hs⟩ := captureImageStart_of_hasFrame s hf
  have h2 : (captureImageStart s).2.2 = true := by rw [hs]
  simp only [captureImageAcross, h2, if_true]

/-- C9 as stated fails in two ways.  A request sent from the unmuted session
`cameraReady` and still pending when "mute audio" is recognized is answered in
a muted session, and its description is spoken all the same.  And on a
platform without speech synthesis an unmuted session speaks nothing. -/
theorem speech_after_mute :
    hasFrame cameraReady = true ∧ cameraReady.isMuted = false ∧
    (run Platform.full [Op.voice "mute audio"] (captureImageStart cameraReady).1).1.isMuted
      = true ∧
    (captureImageAcross Platform.full described [Op.voice "mute audio"] cameraReady).1.isMuted
      = true ∧
    (captureImageAcross Platform.full described [Op.voice "mute audio"] cameraReady).1.caption
      = "A cat on a sofa." ∧
    (captureImageAcross Platform.full described [Op.voice "mute audio"] cameraReady).2.getLast?
      = some (Effect.synthSpeak "A cat on a sofa.") ∧
    spoken (captureImage Platform.silent described cameraReady).2 = [] := by
  decide

/-- C9, amended: a capture request that had a frame overwrites the Caption
with a text fixed by the outcome alone, and hands a text to `speakText` if and
only if the muted flag was false in the session in which `captureImage` was
called (the value the callback closed over), whatever the flag is when the
answer arrives and whatever happens in between; for a call that runs
undisturbed on a platform with speech synthesis, speech is emitted if and
only if the session's muted flag is false.  The announcements of
`startCapturing`, `stopCapturing` and `toggleMute` are handed to `speakText`
whatever the muted flag is. -/
theorem speech_follows_captured_flag (p : Platform) (s : Session) (out : FetchOutcome) :
    (∀ (muted : Bool) (s' : Session),
      (∃ text, (captureImageResume p muted out s').2
          = if muted then [] else speakText p text) ∧
      (p.speechSynthesis = true →
        (spoken (captureImageResume p muted out s').2 ≠ [] ↔ muted = false)) ∧
      ∀ (muted' : Bool) (s'' : Session),
        (captureImageResume p muted out s').1.caption
          = (captureImageResume p muted' out s'').1.caption) ∧
    (hasFrame s = true → ∀ between : List Op,
      (∃ text, (captureImageAcross p out between s).2
          = (captureImageStart s).2.1 ++ (run p between (captureImageStart s).1).2 ++
              (if s.isMuted then [] else speakText p text)) ∧
      ∀ (muted : Bool) (s' : Session),
        (captureImageAcross p out between s).1.caption
          = (captureImageResume p muted out s').1.caption) ∧
    (hasFrame s = true → p.speechSynthesis = true →
      (spoken (captureImage p out s).2 ≠ [] ↔ s.isMuted = false)) ∧
    (∀ m : Bool, s.isCapturing = false →
      (startCapturing p { s with isMuted := m }).2
        = speakText p (if s.hasWelcomed then openedMessage else welcomeMessage)) ∧
    (∀ m : Bool, s.isCapturing = true →
      ∃ rest, (stopCapturing p { s with isMuted := m }).2 = speakText p closedMessage ++ rest ∧
        spoken rest = []) ∧
    (∀ m : Bool,
      (toggleMute p { s with isMuted := m }).2
        = speakText p (if m then "Audio enabled" else "Audio disabled")) := by
  have hres : ∀ (muted : Bool) (s' : Session), p.speechSynthesis = true →
      (spoken (captureImageResume p muted out s').2 ≠ [] ↔ muted = false) := by
    intro muted s' hp
    obtain ⟨text, ht⟩ := captureImageResume_speech p muted out s'
    rw [ht]
    cases muted <;> simp [spoken_speakText p hp, spoken]
  refine ⟨fun muted s' => ⟨captureImageResume_speech p muted out s', hres muted s',
    fun _ _ => captureImageResume_caption ..⟩, ?_, ?_, ?_, ?_, ?_⟩
  · intro hf between
    rw [captureImageAcross_of_hasFrame p out between s hf]
    obtain ⟨text, ht⟩ := captureImageResume_speech p s.isMuted out
      (run p between (captureImageStart s).1).1
    exact ⟨⟨text, by rw [ht]⟩, fun _ _ => captureImageResume_caption ..⟩
  · intro hf hp
    obtain ⟨imageSrc, hi⟩ := captureImage_of_hasFrame p out s hf
    rw [hi]
    have := hres s.isMuted { s with isLoading := true } hp
    simpa [spoken] using this
  · intro m hc
    cases hw : s.hasWelcomed <;> simp [startCapturing, hc, hw]
  · intro m hc
    have hs : spoken (stopStream s.webcamRef).2 = [] := by
      rw [stopStream_calls]; exact spoken_stopCalls _
    cases hr : s.captureIntervalRef with
    | none => exact ⟨(stopStream s.webcamRef).2, by simp [stopCapturing, hc, hr], hs⟩
    | some h =>
      exact ⟨Effect.clearInterval h :: (stopStream s.webcamRef).2,
        by simp [stopCapturing, hc, hr], by simpa [spoken] using hs⟩
  · intro m
    cases m <;> simp [toggleMute]

theorem speech_follows_captured_flag_witness :
    (spoken (captureImage Platform.full described cameraReady).2 ≠ [] ↔
      cameraReady.isMuted = false) ∧
    (∃ text, (captureImageAcross Platform.full described [Op.voice "mute audio"] cameraReady).2
      = (captureImageStart cameraReady).2.1 ++
          (run Platform.full [Op.voice "mute audio"] (captureImageStart cameraReady).1).2 ++
          (if cameraReady.isMuted then [] else speakText Platform.full text)) ∧
    (startCapturing Platform.full { Session.initial with isMuted := true }).2
      = speakText Platform.full
          (if Session.initial.hasWelcomed then openedMessage else welcomeMessage) ∧
    (∃ rest, (stopCapturing Platform.full { cameraReady with isMuted := true }).2
      = speakText Platform.full closedMessage ++ rest ∧ spoken rest = []) :=
  have h := speech_follows_captured_flag Platform.full cameraReady described
  have h0 := speech_follows_captured_flag Platform.full Session.initial described
  ⟨h.2.2.1 (by decide) rfl, (h.2.1 (by decide) [Op.voice "mute audio"]).1,
    h0.2.2.2.1 true rfl, h.2.2.2.2.1 true (by decide)⟩

/-! ## Muting while Active restarts the capture loop -/

theorem captureImageStart_timers (s : Session) :
    (captureImageStart s).1.timers = s.timers := (captureImageStart_ref s).2.1

theorem captureImageStart_nextTimer (s : Session) :
    (captureImageStart s).1.nextTimer = s.nextTimer := (captureImageStart_ref s).2.2.1

theorem captureImageStart_isMuted (s : Session) :
    (captureImageStart s).1.isMuted = s.isMuted := by
  have h := captureImageStart_flags s
  simp only [flags, Prod.mk.injEq] at h
  exact h.2.2.1

/-- The request `captureImage` sends depends on `webcamRef` alone. -/
theorem captureImageStart_trace (s s' : Session) (h : s'.webcamRef = s.webcamRef) :
    (captureImageStart s').2.1 = (captureImageStart s).2.1 := by
  unfold captureImageStart
  rw [h]
  repeat' split
  all_goals simp_all

/-- What React does when the muted flag changes while Active with a timer
`h` in the ref. -/
theorem commit_remute (p : Platform) (prev next : Session) (h : Nat)
    (hprev : prev.isCapturing = true) (hnext : next.isCapturing = true)
    (hm : next.isMuted = !prev.isMuted) (href : next.captureIntervalRef = some h) :
    (commit p prev next).2 =
      (if p.speechRecognition then [Effect.clearInterval h, Effect.recognitionStop] else []) ++
        [Effect.clearInterval h] ++ recognitionEffect p ++ [Effect.captureImageCall] ++
        (captureImageStart next).2.1 ++ [Effect.setInterval 7000 next.nextTimer] ∧
    (commit p prev next).1.captureIntervalRef = some next.nextTimer ∧
    next.nextTimer ∈ (commit p prev next).1.timers ∧
    (h ≠ next.nextTimer → h ∉ (commit p prev next).1.timers) ∧
    (commit p prev next).1.isMuted = next.isMuted := by
  have hr : recognitionDepsChanged prev next = true := by
    cases hp : prev.isMuted <;> simp [recognitionDepsChanged, hm, hp]
  have hd : captureDepsChanged prev next = true := by
    cases hp : prev.isMuted <;> simp [captureDepsChanged, hm, hp]
  have ha : attachWebcam prev next = next := by
    simp [attachWebcam, hprev, hnext]
  simp only [commit, hr, hd, ha, hprev, Bool.true_and, Bool.and_true, runIf_true, if_true]
  cases hs : p.speechRecognition
  · simp only [runIf_false, captureCleanup, href, captureEffect, hnext, if_true,
      captureImageStart_timers, captureImageStart_nextTimer, captureImageStart_isMuted]
    refine ⟨?_, trivial, by simp, ?_, trivial⟩
    · simp
      exact captureImageStart_trace next _ rfl
    · intro hne
      simp [clearTimer, hne]
  · simp only [runIf_true, recognitionCleanup, captureCleanup, href, captureEffect, hnext,
      if_true, captureImageStart_timers, captureImageStart_nextTimer,
      captureImageStart_isMuted]
    refine ⟨?_, trivial, by simp, ?_, trivial⟩
    · simp
      exact captureImageStart_trace next _ rfl
    · intro hne
      simp [clearTimer, hne]

/-- C10: while Active with a timer `h` running, `toggleMute` makes React
re-run the capture effect: after the announcement the host sees
`clearInterval(h)`, then one call of `captureImage` (sending a request when
a frame is ready), then `setInterval` with 7000 ms whose new handle replaces
`h` in the ref and is live; a voice command that contains "mute audio" and no
camera phrase, received while not muted, does exactly the same after
cancelling speech. -/
theorem mute_restarts_capture (p : Platform) (s : Session) (h : Nat)
    (hc : s.isCapturing = true) (hr : s.captureIntervalRef = some h) :
    (step p Op.toggleMute s).1.isMuted = (!s.isMuted) ∧
    (step p Op.toggleMute s).2 =
      speakText p (if s.isMuted then "Audio enabled" else "Audio disabled") ++
        ((if p.speechRecognition then [Effect.clearInterval h, Effect.recognitionStop] else []) ++
          [Effect.clearInterval h] ++ recognitionEffect p ++ [Effect.captureImageCall] ++
          (captureImageStart s).2.1 ++ [Effect.setInterval 7000 s.nextTimer]) ∧
    (step p Op.toggleMute s).2.count Effect.captureImageCall = 1 ∧
    (step p Op.toggleMute s).1.captureIntervalRef = some s.nextTimer ∧
    s.nextTimer ∈ (step p Op.toggleMute s).1.timers ∧
    (h ≠ s.nextTimer → h ∉ (step p Op.toggleMute s).1.timers) ∧
    (step p Op.toggleMute s).1.isCapturing = true ∧
    (∀ t : String, p.speechSynthesis = true → s.isMuted = false →
      includes t "mute audio" = true →
      includes t "open camera" = false → includes t "start camera" = false →
      includes t "close camera" = false → includes t "stop camera" = false →
      step p (Op.voice t) s
        = ((step p Op.toggleMute s).1, Effect.synthCancel :: (step p Op.toggleMute s).2)) := by
  have hm := commit_remute p s (toggleMute p s).1 h hc hc rfl hr
  have htr : (captureImageStart (toggleMute p s).1).2.1 = (captureImageStart s).2.1 :=
    captureImageStart_trace s _ rfl
  rw [htr] at hm
  obtain ⟨m1, m2, m3, m4, m5⟩ := hm
  have hsay : (toggleMute p s).2
      = speakText p (if s.isMuted then "Audio enabled" else "Audio disabled") := by
    cases hmu : s.isMuted <;> simp [toggleMute, hmu]
  have htrace : (step p Op.toggleMute s).2 =
      speakText p (if s.isMuted then "Audio enabled" else "Audio disabled") ++
        ((if p.speechRecognition then [Effect.clearInterval h, Effect.recognitionStop] else []) ++
          [Effect.clearInterval h] ++ recognitionEffect p ++ [Effect.captureImageCall] ++
          (captureImageStart s).2.1 ++ [Effect.setInterval 7000 s.nextTimer]) := by
    show (toggleMute p s).2 ++ (commit p s (toggleMute p s).1).2 = _
    rw [hsay, m1]
    rfl
  refine ⟨m5, htrace, ?_, m2, m3, m4, ?_, ?_⟩
  · rw [htrace]
    have hcl : (if p.speechRecognition = true
        then [Effect.clearInterval h, Effect.recognitionStop] else []).count
        Effect.captureImageCall = 0 := by
      split <;> simp [List.count_cons]
    simp [List.count_cons, List.count_append, count_call_speakText,
      count_call_recognitionEffect, count_call_captureImageStart, hcl]
  · show (commit p s (toggleMute p s).1).1.isCapturing = true
    rw [(commit_flags p s _).1]
    exact hc
  · intro t hp hmu ht h1 h2 h3 h4
    have hap : (Op.voice t).apply p s
        = ((toggleMute p s).1, Effect.synthCancel :: (toggleMute p s).2) := by
      simp [Op.apply, onresult, hp, hmu, ht, h1, h2, h3, h4]
    simp only [step, hap]
    rfl

theorem mute_restarts_capture_witness :
    (step Platform.full Op.toggleMute
        { Session.initial with isCapturing := true, hasWelcomed := true,
                               captureIntervalRef := some 1, timers := [1], nextTimer := 2,
                               webcamRef := some readyCamera }).2
      = [Effect.synthCancel, Effect.synthSpeak "Audio disabled",
         Effect.clearInterval 1, Effect.recognitionStop, Effect.clearInterval 1,
         Effect.recognitionStop, Effect.recognitionStart, Effect.synthCancel,
         Effect.synthSpeak "VisionaryAI ready. Say \"open camera\" to begin.",
         Effect.captureImageCall, Effect.fetch "data:image/jpeg;base64,AAAA",
         Effect.setInterval 7000 2] ∧
    step Platform.full (Op.voice "mute audio")
        { Session.initial with isCapturing := true, hasWelcomed := true,
                               captureIntervalRef := some 1, timers := [1], nextTimer := 2,
                               webcamRef := some readyCamera }
      = ((step Platform.full Op.toggleMute
            { Session.initial with isCapturing := true, hasWelcomed := true,
                                   captureIntervalRef := some 1, timers := [1], nextTimer := 2,
                                   webcamRef := some readyCamera }).1,
          Effect.synthCancel ::
            (step Platform.full Op.toggleMute
              { Session.initial with isCapturing := true, hasWelcomed := true,
                                     captureIntervalRef := some 1, timers := [1],
                                     nextTimer := 2, webcamRef := some readyCamera }).2) :=
  have h := mute_restarts_capture Platform.full
    { Session.initial with isCapturing := true, hasWelcomed := true,
                           captureIntervalRef := some 1, timers := [1], nextTimer := 2,
                           webcamRef := some readyCamera } 1 rfl rfl
  ⟨h.2.1, h.2.2.2.2.2.2.2 "mute audio" rfl rfl (by decide) (by decide) (by decide)
    (by decide) (by decide)⟩

end VisionMini
